import Mathlib

/-!
Verification of the wind compound-risk pipeline
(`metrics.py`, `risk_states.py`).

Reals are modelled as rationals; timestamps as a pair of a UTC day key
(`date : ℕ`, the normalized midnight) and an hour-of-day (`hour : ℕ`).
Pandas columns are modelled as Lean lists; a daily DataFrame row is a
structure holding the values of the columns at that date.
-/

namespace WindRisk

/-- One raw hourly row (from `data_loader.load`): a UTC timestamp split
into calendar date key and hour-of-day, plus wind speed and gust. -/
structure HourlyRow where
  date : ℕ
  hour : ℕ
  wind_speed_ms : ℚ
  gust_ms : ℚ
deriving DecidableEq

/-! ### Constants (`metrics.py`) -/

def BASELINE_WIND : ℚ := 20
def BASELINE_RECOVERY : ℚ := 10
def CWL_HIGH_DAY_THRESHOLD : ℚ := 50
def SHWe_FAIL_NIGHT_THRESHOLD : ℚ := 20

/-- `RECOVERY_HOURS = frozenset(range(0, 6)) | frozenset(range(22, 24))`,
as a membership test on the hour-of-day. -/
def RECOVERY_HOURS (h : ℕ) : Bool := decide (h < 6) || (decide (22 ≤ h) && decide (h < 24))

/-! ### Hourly metrics (`metrics.py`) -/

/-- `compute_ews`: `df["wind_speed_ms"] + 0.3 * (df["gust_ms"] - df["wind_speed_ms"])`. -/
def compute_ews (r : HourlyRow) : ℚ :=
  r.wind_speed_ms + (3 / 10) * (r.gust_ms - r.wind_speed_ms)

/-- `compute_cwl_hour`: `(ews - BASELINE_WIND).clip(lower=0)`. -/
def compute_cwl_hour (ews : ℚ) : ℚ := max (ews - BASELINE_WIND) 0

/-- `compute_shwe_hour`: `(ews - BASELINE_RECOVERY).clip(lower=0)` kept only on rows
whose index hour is in `RECOVERY_HOURS`, else `0.0`. -/
def compute_shwe_hour (hour : ℕ) (ews : ℚ) : ℚ :=
  if RECOVERY_HOURS hour then max (ews - BASELINE_RECOVERY) 0 else 0

/-- An hourly row extended with the three derived score columns, as built
by `compute_all` (`hourly["EWS"]`, `hourly["CWL_hour"]`, `hourly["SHWe_hour"]`). -/
structure HourlyDerived where
  raw : HourlyRow
  EWS : ℚ
  CWL_hour : ℚ
  SHWe_hour : ℚ
deriving DecidableEq

/-- The hourly half of `compute_all`: copy the input frame and add the
`EWS`, `CWL_hour`, `SHWe_hour` columns row by row. -/
def hourlyWithScores (df : List HourlyRow) : List HourlyDerived :=
  df.map fun r =>
    let e := compute_ews r
    { raw := r, EWS := e, CWL_hour := compute_cwl_hour e
      SHWe_hour := compute_shwe_hour r.hour e }

/-! ### Daily aggregation helpers (`metrics.py`) -/

/-- Running streak of consecutive `true` values (`_streak`), with the carried
counter made explicit: `count = count + 1 if val else 0` per element. -/
def streakAux (c : ℕ) : List Bool → List ℕ
  | [] => []
  | b :: bs =>
    let c2 := if b then c + 1 else 0
    c2 :: streakAux c2 bs

/-- `_streak(bool_series)`: the counter starts at `0`. -/
def streak (l : List Bool) : List ℕ := streakAux 0 l

/-- `Series.cumsum()` with an explicit carried partial sum. -/
def cumsumAux (a : ℚ) : List ℚ → List ℚ
  | [] => []
  | x :: xs => (a + x) :: cumsumAux (a + x) xs

/-- `Series.cumsum()`: prefix sums of a column. -/
def cumsum (l : List ℚ) : List ℚ := cumsumAux 0 l

/-- The distinct normalized date keys of the hourly index, ascending:
pandas `groupby` sorts its group keys. -/
def dateKeys (H : List HourlyDerived) : List ℕ :=
  ((H.map (fun r => r.raw.date)).dedup).insertionSort (· ≤ ·)

/-- The rows of one calendar date (one `groupby(date_key)` group). -/
def rowsOn (H : List HourlyDerived) (d : ℕ) : List HourlyDerived :=
  H.filter (fun r => r.raw.date == d)

/-- `daily_cwl`: `hourly["CWL_hour"].groupby(date_key).sum()` at date `d`. -/
def daily_CWL (H : List HourlyDerived) (d : ℕ) : ℚ :=
  ((rowsOn H d).map (fun r => r.CWL_hour)).sum

/-- `daily_shwe`: `hourly["SHWe_hour"].groupby(date_key).sum()` at date `d`. -/
def daily_SHWe (H : List HourlyDerived) (d : ℕ) : ℚ :=
  ((rowsOn H d).map (fun r => r.SHWe_hour)).sum

/-- `max` of a pandas group after `reindex(..., fill_value=0.0)`: the true
maximum on a nonempty group, `0.0` where the group is absent. -/
def maxListD : List ℚ → ℚ
  | [] => 0
  | x :: xs => xs.foldl max x

/-- `max_ews_recovery` at date `d`: the max `EWS` over that date's rows whose
hour lies in `RECOVERY_HOURS`, reindexed over all dates with fill `0.0`. -/
def max_ews_recovery (H : List HourlyDerived) (d : ℕ) : ℚ :=
  maxListD ((H.filter (fun r => r.raw.date == d && RECOVERY_HOURS r.raw.hour)).map
    (fun r => r.EWS))

/-- `no_recovery_day = max_ews_recovery > BASELINE_RECOVERY`. -/
def no_recovery_day (H : List HourlyDerived) (d : ℕ) : Bool :=
  decide (BASELINE_RECOVERY < max_ews_recovery H d)

/-- `high_wind_day = daily_cwl > CWL_HIGH_DAY_THRESHOLD`. -/
def high_wind_day (H : List HourlyDerived) (d : ℕ) : Bool :=
  decide (CWL_HIGH_DAY_THRESHOLD < daily_CWL H d)

/-- `failed_recovery_night = daily_shwe > SHWe_FAIL_NIGHT_THRESHOLD`. -/
def failed_recovery_night (H : List HourlyDerived) (d : ℕ) : Bool :=
  decide (SHWe_FAIL_NIGHT_THRESHOLD < daily_SHWe H d)

/-- `compound = high_wind_day & failed_recovery_night`. -/
def compound (H : List HourlyDerived) (d : ℕ) : Bool :=
  high_wind_day H d && failed_recovery_night H d

/-! ### The daily columns, each aligned on `dateKeys` -/

def daily_CWL_col (H : List HourlyDerived) : List ℚ := (dateKeys H).map (daily_CWL H)
def daily_SHWe_col (H : List HourlyDerived) : List ℚ := (dateKeys H).map (daily_SHWe H)
def cumulative_CWL_col (H : List HourlyDerived) : List ℚ := cumsum (daily_CWL_col H)
def cumulative_SHWe_col (H : List HourlyDerived) : List ℚ := cumsum (daily_SHWe_col H)
def no_recovery_day_col (H : List HourlyDerived) : List Bool := (dateKeys H).map (no_recovery_day H)
def high_wind_day_col (H : List HourlyDerived) : List Bool := (dateKeys H).map (high_wind_day H)
def failed_recovery_night_col (H : List HourlyDerived) : List Bool :=
  (dateKeys H).map (failed_recovery_night H)
def compound_col (H : List HourlyDerived) : List Bool := (dateKeys H).map (compound H)

/-- One row of the daily DataFrame built by `compute_daily_metrics`
(`pd.concat` of the twelve columns). -/
structure DailyRecord where
  date : ℕ
  daily_CWL : ℚ
  daily_SHWe : ℚ
  cumulative_CWL : ℚ
  cumulative_SHWe : ℚ
  no_recovery_day : Bool
  high_wind_day : Bool
  failed_recovery_night : Bool
  compound : Bool
  consecutive_no_recovery_days : ℕ
  consecutive_high_wind_days : ℕ
  consecutive_failed_recovery_nights : ℕ
  consecutive_compound_cycles : ℕ
deriving DecidableEq

/-- `compute_daily_metrics`: the daily table, one record per date key, each
field read off the corresponding aligned column. -/
def compute_daily_metrics (H : List HourlyDerived) : List DailyRecord :=
  (List.range (dateKeys H).length).map fun i =>
    { date := (dateKeys H).getD i 0
      daily_CWL := (daily_CWL_col H).getD i 0
      daily_SHWe := (daily_SHWe_col H).getD i 0
      cumulative_CWL := (cumulative_CWL_col H).getD i 0
      cumulative_SHWe := (cumulative_SHWe_col H).getD i 0
      no_recovery_day := (no_recovery_day_col H).getD i false
      high_wind_day := (high_wind_day_col H).getD i false
      failed_recovery_night := (failed_recovery_night_col H).getD i false
      compound := (compound_col H).getD i false
      consecutive_no_recovery_days := (streak (no_recovery_day_col H)).getD i 0
      consecutive_high_wind_days := (streak (high_wind_day_col H)).getD i 0
      consecutive_failed_recovery_nights := (streak (failed_recovery_night_col H)).getD i 0
      consecutive_compound_cycles := (streak (compound_col H)).getD i 0 }

/-- `compute_all`: returns the extended hourly frame and the daily frame. -/
def compute_all (df : List HourlyRow) : List HourlyDerived × List DailyRecord :=
  let hourly := hourlyWithScores df
  (hourly, compute_daily_metrics hourly)

/-- `compute_all` at the core boundary: `metrics.compute_all` and
`compute_daily_metrics` contain no validation and no raise statement, so the
translation always returns a value; the fallible shape records that fact. -/
def compute_all_checked (df : List HourlyRow) :
    Except String (List HourlyDerived × List DailyRecord) :=
  Except.ok (compute_all df)

/-! ### Risk states (`risk_states.py`) -/

def CWL_STRAIN : ℚ := 80
def CWL_FAIL : ℚ := 160
def SHWE_STRAIN : ℚ := 40
def SHWE_FAIL : ℚ := 80
def COMPOUND_STRAIN : ℕ := 2
def COMPOUND_FAIL : ℕ := 4

inductive RiskState where
  | Stable
  | Straining
  | Failure
deriving DecidableEq

/-- `STATE_NUM = {"Stable": 0, "Straining": 1, "Failure": 2}`. -/
def STATE_NUM : RiskState → ℕ
  | .Stable => 0
  | .Straining => 1
  | .Failure => 2

/-- `classify_risk_state(cwl, shwe, compound_streak)`. -/
def classify_risk_state (cwl shwe : ℚ) (compound_streak : ℕ) : RiskState :=
  if CWL_FAIL ≤ cwl ∨ SHWE_FAIL ≤ shwe ∨ COMPOUND_FAIL ≤ compound_streak then .Failure
  else if CWL_STRAIN ≤ cwl ∨ SHWE_STRAIN ≤ shwe ∨ COMPOUND_STRAIN ≤ compound_streak then
    .Straining
  else .Stable

/-- `risk_multiplier(cwl, shwe, compound_streak)
  = 1.0 + (cwl / 80.0) + (shwe / 40.0) + (compound_streak * 0.5)`. -/
def risk_multiplier (cwl shwe : ℚ) (compound_streak : ℕ) : ℚ :=
  1 + cwl / 80 + shwe / 40 + (compound_streak : ℚ) * (1 / 2)

/-- A daily row after `compute_risk_states`: the copied input row plus the
three appended columns. -/
structure DailyWithRisk where
  base : DailyRecord
  risk_state : RiskState
  risk_multiplier : ℚ
  risk_state_num : ℕ
deriving DecidableEq

/-- `compute_risk_states`: copy the daily frame and append `risk_state`,
`risk_multiplier` and `risk_state_num`, each computed per row from
`daily_CWL`, `daily_SHWe`, `consecutive_compound_cycles`. -/
def compute_risk_states (daily : List DailyRecord) : List DailyWithRisk :=
  daily.map fun row =>
    { base := row
      risk_state :=
        classify_risk_state row.daily_CWL row.daily_SHWe row.consecutive_compound_cycles
      risk_multiplier :=
        risk_multiplier row.daily_CWL row.daily_SHWe row.consecutive_compound_cycles
      risk_state_num :=
        STATE_NUM
          (classify_risk_state row.daily_CWL row.daily_SHWe row.consecutive_compound_cycles) }

/-! ### Sample inputs, used to instantiate hypotheses at concrete data -/

/-- A one-row sample input: midnight UTC of day `0`, calm air. -/
def sampleDF : List HourlyRow :=
  [{ date := 0, hour := 0, wind_speed_ms := 0, gust_ms := 0 }]

/-- The single row of the daily table of `sampleDF`, written as
`compute_daily_metrics`'s row builder at index `0`. -/
def sampleDailyRec : DailyRecord :=
  { date := (dateKeys (hourlyWithScores sampleDF)).getD 0 0
    daily_CWL := (daily_CWL_col (hourlyWithScores sampleDF)).getD 0 0
    daily_SHWe := (daily_SHWe_col (hourlyWithScores sampleDF)).getD 0 0
    cumulative_CWL := (cumulative_CWL_col (hourlyWithScores sampleDF)).getD 0 0
    cumulative_SHWe := (cumulative_SHWe_col (hourlyWithScores sampleDF)).getD 0 0
    no_recovery_day := (no_recovery_day_col (hourlyWithScores sampleDF)).getD 0 false
    high_wind_day := (high_wind_day_col (hourlyWithScores sampleDF)).getD 0 false
    failed_recovery_night := (failed_recovery_night_col (hourlyWithScores sampleDF)).getD 0 false
    compound := (compound_col (hourlyWithScores sampleDF)).getD 0 false
    consecutive_no_recovery_days :=
      (streak (no_recovery_day_col (hourlyWithScores sampleDF))).getD 0 0
    consecutive_high_wind_days :=
      (streak (high_wind_day_col (hourlyWithScores sampleDF))).getD 0 0
    consecutive_failed_recovery_nights :=
      (streak (failed_recovery_night_col (hourlyWithScores sampleDF))).getD 0 0
    consecutive_compound_cycles :=
      (streak (compound_col (hourlyWithScores sampleDF))).getD 0 0 }

/-- A one-row sample input inside the recovery window (hour 23),
`wind_speed = gust = 20` (Scenario E of the spec). -/
def sampleRowE : HourlyRow := { date := 0, hour := 23, wind_speed_ms := 20, gust_ms := 20 }

/-- The derived hourly row of `sampleRowE`, written as the row builder of
`hourlyWithScores` applied to it. -/
def sampleDerivedE : HourlyDerived :=
  { raw := sampleRowE
    EWS := compute_ews sampleRowE
    CWL_hour := compute_cwl_hour (compute_ews sampleRowE)
    SHWe_hour := compute_shwe_hour sampleRowE.hour (compute_ews sampleRowE) }

/-! ## Theorems -/

/-- Unfolding equation for `streakAux` on a cons cell (shared helper). -/
theorem streakAux_cons (c : ℕ) (b : Bool) (t : List Bool) :
    streakAux c (b :: t) =
      (if b then c + 1 else 0) :: streakAux (if b then c + 1 else 0) t := rfl

theorem streakAux_length (c : ℕ) (l : List Bool) :
    (streakAux c l).length = l.length := by
  induction l generalizing c with
  | nil => rfl
  | cons b t ih => simp [streakAux_cons, ih]

/-- The defining recurrence of `_streak`, read off positionally, for an
arbitrary starting counter (shared helper). -/
theorem streakAux_getD (bs : List Bool) : ∀ (c i : ℕ), i < bs.length →
    (streakAux c bs).getD i 0 =
      if bs.getD i false then
        (if i = 0 then c + 1 else 1 + (streakAux c bs).getD (i - 1) 0)
      else 0 := by
  induction bs with
  | nil =>
    intro c i h
    simp at h
  | cons b t ih =>
    intro c i h
    rw [streakAux_cons]
    cases i with
    | zero => cases b <;> simp
    | succ j =>
      have hj : j < t.length := by
        have := h
        simp at this
        omega
      simp only [List.getD_cons_succ, Nat.succ_ne_zero, if_false, Nat.succ_sub_one]
      rw [ih (if b then c + 1 else 0) j hj]
      cases hb : t.getD j false
      · simp [hb]
      · cases j with
        | zero => simp [hb, Nat.add_comm]
        | succ m => simp [hb]

/-- C3: for any boolean day-series, the streak at a position is `0` where the
series is `false`, and `1 +` the previous streak (or `1` at the first
position) where it is `true`; and `[true, true, false]` yields `[1, 2, 0]`. -/
theorem streak_recurrence_spec (bs : List Bool) (i : ℕ) (h : i < bs.length) :
    ((streak bs).getD i 0 =
      if bs.getD i false then
        (if i = 0 then 1 else 1 + (streak bs).getD (i - 1) 0)
      else 0) ∧
    streak [true, true, false] = [1, 2, 0] := by
  refine ⟨?_, rfl⟩
  simpa [streak] using streakAux_getD bs 0 i h

/-- Witness for C3 at `bs = [true, true, false]`, `i = 1`. -/
theorem streak_recurrence_spec_witness :
    (streak [true, true, false]).getD 1 0 =
      if (List.getD [true, true, false] 1 false) then
        (if 1 = 0 then 1 else 1 + (streak [true, true, false]).getD (1 - 1) 0)
      else 0 :=
  (streak_recurrence_spec [true, true, false] 1 (by simp)).1

/-- Streaks of pointwise-implied flag series dominate, position by position,
for dominated starting counters (shared helper). -/
theorem streakAux_getD_le (p q : ℕ → Bool) (hpq : ∀ d, p d = true → q d = true) :
    ∀ (keys : List ℕ) (c1 c2 : ℕ), c1 ≤ c2 → ∀ i,
      (streakAux c1 (keys.map p)).getD i 0 ≤ (streakAux c2 (keys.map q)).getD i 0 := by
  intro keys
  induction keys with
  | nil =>
    intro c1 c2 hc i
    simp [streakAux]
  | cons d t ih =>
    intro c1 c2 hc i
    have hc2 : (if p d then c1 + 1 else 0) ≤ (if q d then c2 + 1 else 0) := by
      cases hp : p d
      · simp
      · rw [hpq d hp]
        simp
        omega
    cases i with
    | zero => simpa [streakAux_cons] using hc2
    | succ j => simpa [streakAux_cons] using ih _ _ hc2 j

/-- C10: every row of the daily table satisfies
`consecutive_compound_cycles ≤ min consecutive_high_wind_days
consecutive_failed_recovery_nights`, since `compound` is the conjunction of
the other two flags and all streaks share the reset-on-false recurrence. -/
theorem compound_streak_le_spec (df : List HourlyRow) (rec : DailyRecord)
    (h : rec ∈ compute_daily_metrics (hourlyWithScores df)) :
    rec.consecutive_compound_cycles ≤
      min rec.consecutive_high_wind_days rec.consecutive_failed_recovery_nights := by
  unfold compute_daily_metrics at h
  rcases List.mem_map.mp h with ⟨i, hi, hrec⟩
  subst hrec
  dsimp only
  apply le_min
  · unfold streak compound_col high_wind_day_col
    refine streakAux_getD_le (compound (hourlyWithScores df))
      (high_wind_day (hourlyWithScores df)) (fun d hd => ?_) _ 0 0 le_rfl i
    unfold compound at hd
    exact (Bool.and_eq_true _ _ |>.mp hd).1
  · unfold streak compound_col failed_recovery_night_col
    refine streakAux_getD_le (compound (hourlyWithScores df))
      (failed_recovery_night (hourlyWithScores df)) (fun d hd => ?_) _ 0 0 le_rfl i
    unfold compound at hd
    exact (Bool.and_eq_true _ _ |>.mp hd).2

/-- Exact case analysis of `classify_risk_state` in terms of its two gate
conditions (shared helper). -/
theorem classify_cases (cwl shwe : ℚ) (k : ℕ) :
    (classify_risk_state cwl shwe k = RiskState.Failure ↔
      (CWL_FAIL ≤ cwl ∨ SHWE_FAIL ≤ shwe ∨ COMPOUND_FAIL ≤ k)) ∧
    (classify_risk_state cwl shwe k = RiskState.Straining ↔
      (¬(CWL_FAIL ≤ cwl ∨ SHWE_FAIL ≤ shwe ∨ COMPOUND_FAIL ≤ k) ∧
        (CWL_STRAIN ≤ cwl ∨ SHWE_STRAIN ≤ shwe ∨ COMPOUND_STRAIN ≤ k))) ∧
    (classify_risk_state cwl shwe k = RiskState.Stable ↔
      (¬(CWL_FAIL ≤ cwl ∨ SHWE_FAIL ≤ shwe ∨ COMPOUND_FAIL ≤ k) ∧
        ¬(CWL_STRAIN ≤ cwl ∨ SHWE_STRAIN ≤ shwe ∨ COMPOUND_STRAIN ≤ k))) := by
  unfold classify_risk_state
  split_ifs with h1 h2 <;> simp_all

/-- The head disjunct of a gate condition is monotone in the compared value
(shared helper). -/
theorem gate_head_mono {p : Prop} {t cwl cwl2 : ℚ} (h : cwl ≤ cwl2) :
    (t ≤ cwl ∨ p) → (t ≤ cwl2 ∨ p) :=
  fun hf => hf.imp (fun a => le_trans a h) id

theorem STATE_NUM_le_two (s : RiskState) : STATE_NUM s ≤ 2 := by
  cases s <;> simp [STATE_NUM]

theorem STATE_NUM_le_one_of_ne (s : RiskState) (h : s ≠ RiskState.Failure) :
    STATE_NUM s ≤ 1 := by
  cases s <;> simp_all [STATE_NUM]

/-- C1: `classify_risk_state` returns `Failure` iff `daily_CWL ≥ 160` or
`daily_SHWe ≥ 80` or the compound streak is `≥ 4`; otherwise `Straining` iff
`daily_CWL ≥ 80` or `daily_SHWe ≥ 40` or the streak is `≥ 2`; otherwise
`Stable`; first match wins, so whenever both gate conditions hold the state
is `Failure`. -/
theorem classify_risk_state_priority_spec (cwl shwe : ℚ) (k : ℕ) :
    (classify_risk_state cwl shwe k = RiskState.Failure ↔
      (cwl ≥ 160 ∨ shwe ≥ 80 ∨ k ≥ 4)) ∧
    (classify_risk_state cwl shwe k = RiskState.Straining ↔
      (¬(cwl ≥ 160 ∨ shwe ≥ 80 ∨ k ≥ 4) ∧ (cwl ≥ 80 ∨ shwe ≥ 40 ∨ k ≥ 2))) ∧
    (classify_risk_state cwl shwe k = RiskState.Stable ↔
      (¬(cwl ≥ 160 ∨ shwe ≥ 80 ∨ k ≥ 4) ∧ ¬(cwl ≥ 80 ∨ shwe ≥ 40 ∨ k ≥ 2))) ∧
    (((cwl ≥ 160 ∨ shwe ≥ 80 ∨ k ≥ 4) ∧ (cwl ≥ 80 ∨ shwe ≥ 40 ∨ k ≥ 2)) →
      classify_risk_state cwl shwe k = RiskState.Failure) := by
  have h := classify_cases cwl shwe k
  unfold CWL_FAIL SHWE_FAIL COMPOUND_FAIL CWL_STRAIN SHWE_STRAIN COMPOUND_STRAIN at h
  exact ⟨h.1, h.2.1, h.2.2, fun hb => h.1.mpr hb.1⟩

/-- Witness for C1 at `cwl = 160`, `shwe = 40`, streak `0`: both gate
conditions hold and the state is `Failure`. -/
theorem classify_risk_state_priority_spec_witness :
    classify_risk_state 160 40 0 = RiskState.Failure :=
  (classify_risk_state_priority_spec 160 40 0).2.2.2
    (by norm_num)

/-- C5: `risk_multiplier` is exactly
`1 + cwl/80 + shwe/40 + compound_streak * 0.5`; it is at least `1` on
non-negative aggregates; and at `daily_CWL = 90`, `daily_SHWe = 0`,
streak `0` the state is `Straining` and the multiplier is exactly `2.125`. -/
theorem risk_multiplier_spec (cwl shwe : ℚ) (k : ℕ) :
    (risk_multiplier cwl shwe k = 1 + cwl / 80 + shwe / 40 + (k : ℚ) * (1 / 2)) ∧
    (0 ≤ cwl → 0 ≤ shwe → 1 ≤ risk_multiplier cwl shwe k) ∧
    classify_risk_state 90 0 0 = RiskState.Straining ∧
    risk_multiplier 90 0 0 = 2.125 := by
  refine ⟨rfl, ?_, ?_, by norm_num [risk_multiplier]⟩
  · intro h1 h2
    unfold risk_multiplier
    have hk : (0 : ℚ) ≤ (k : ℚ) := Nat.cast_nonneg k
    have d1 : (0 : ℚ) ≤ cwl / 80 := div_nonneg h1 (by norm_num)
    have d2 : (0 : ℚ) ≤ shwe / 40 := div_nonneg h2 (by norm_num)
    nlinarith
  · have h := classify_cases 90 0 0
    unfold CWL_FAIL SHWE_FAIL COMPOUND_FAIL CWL_STRAIN SHWE_STRAIN COMPOUND_STRAIN at h
    exact h.2.1.mpr (by norm_num)

/-- Witness for C5 at `cwl = shwe = 1`, streak `1`: the lower bound holds. -/
theorem risk_multiplier_spec_witness : 1 ≤ risk_multiplier 1 1 1 :=
  (risk_multiplier_spec 1 1 1).2.1 (by norm_num) (by norm_num)

/-- C7: with `daily_SHWe` and the compound streak fixed, raising `daily_CWL`
never lowers the ordinal state (`Stable = 0 < Straining = 1 < Failure = 2`);
and `risk_multiplier` is strictly increasing in each argument separately. -/
theorem classifier_monotone_spec (cwl cwl2 shwe shwe2 : ℚ) (k k2 : ℕ) :
    (cwl ≤ cwl2 →
      STATE_NUM (classify_risk_state cwl shwe k) ≤
        STATE_NUM (classify_risk_state cwl2 shwe k)) ∧
    (cwl < cwl2 → risk_multiplier cwl shwe k < risk_multiplier cwl2 shwe k) ∧
    (shwe < shwe2 → risk_multiplier cwl shwe k < risk_multiplier cwl shwe2 k) ∧
    (k < k2 → risk_multiplier cwl shwe k < risk_multiplier cwl shwe k2) := by
  refine ⟨?_, ?_, ?_, ?_⟩
  · intro h
    rcases h2 : classify_risk_state cwl2 shwe k with _ | _ | _
    · have hst := (classify_cases cwl2 shwe k).2.2.mp h2
      have h1 : classify_risk_state cwl shwe k = RiskState.Stable :=
        (classify_cases cwl shwe k).2.2.mpr
          ⟨fun hf => hst.1 (gate_head_mono h hf), fun hs => hst.2 (gate_head_mono h hs)⟩
      rw [h1]
    · have hst := (classify_cases cwl2 shwe k).2.1.mp h2
      have hne : classify_risk_state cwl shwe k ≠ RiskState.Failure := by
        intro hf
        exact hst.1 (gate_head_mono h ((classify_cases cwl shwe k).1.mp hf))
      simpa [STATE_NUM] using STATE_NUM_le_one_of_ne _ hne
    · simpa [STATE_NUM] using STATE_NUM_le_two (classify_risk_state cwl shwe k)
  · intro h
    unfold risk_multiplier
    linarith
  · intro h
    unfold risk_multiplier
    linarith
  · intro h
    unfold risk_multiplier
    have hk : (k : ℚ) < (k2 : ℚ) := by exact_mod_cast h
    linarith

/-- Witness for C7 at concrete inputs: `0 ≤ 1` on each coordinate. -/
theorem classifier_monotone_spec_witness :
    STATE_NUM (classify_risk_state 0 0 0) ≤ STATE_NUM (classify_risk_state 1 0 0) ∧
    risk_multiplier 0 0 0 < risk_multiplier 1 0 0 ∧
    risk_multiplier 0 0 0 < risk_multiplier 0 1 0 ∧
    risk_multiplier 0 0 0 < risk_multiplier 0 0 1 :=
  ⟨(classifier_monotone_spec 0 1 0 0 0 0).1 (by norm_num),
   (classifier_monotone_spec 0 1 0 0 0 0).2.1 (by norm_num),
   (classifier_monotone_spec 0 0 0 1 0 0).2.2.1 (by norm_num),
   (classifier_monotone_spec 0 0 0 0 0 1).2.2.2 (by norm_num)⟩

/-- Witness for C10 at `sampleDF`, whose daily table is `[sampleDailyRec]`. -/
theorem compound_streak_le_spec_witness :
    sampleDailyRec.consecutive_compound_cycles ≤
      min sampleDailyRec.consecutive_high_wind_days
        sampleDailyRec.consecutive_failed_recovery_nights :=
  compound_streak_le_spec sampleDF sampleDailyRec (by
    unfold compute_daily_metrics
    have h1 : (dateKeys (hourlyWithScores sampleDF)).length = 1 := rfl
    rw [h1]
    exact List.mem_map_of_mem _ (List.mem_range.mpr (by norm_num)))

/-- The recovery-window membership test, as a proposition on the hour-of-day
(shared helper). -/
theorem RECOVERY_HOURS_iff (h : ℕ) :
    RECOVERY_HOURS h = true ↔ (h ≤ 5 ∨ h = 22 ∨ h = 23) := by
  unfold RECOVERY_HOURS
  simp only [Bool.or_eq_true, Bool.and_eq_true, decide_eq_true_eq]
  omega

/-- C2: every derived hourly row carries
`EWS = wind_speed + 0.3 * (gust - wind_speed)`,
`CWL_hour = max 0 (EWS - 20)`, and `SHWe_hour = max 0 (EWS - 10)` exactly on
recovery-window hours `{0,...,5,22,23}`, `0` on all other hours. -/
theorem hourly_scores_spec (df : List HourlyRow) (r : HourlyDerived)
    (h : r ∈ hourlyWithScores df) :
    r.EWS = r.raw.wind_speed_ms + (3 / 10) * (r.raw.gust_ms - r.raw.wind_speed_ms) ∧
    r.CWL_hour = max 0 (r.EWS - 20) ∧
    ((r.raw.hour ≤ 5 ∨ r.raw.hour = 22 ∨ r.raw.hour = 23) →
      r.SHWe_hour = max 0 (r.EWS - 10)) ∧
    (¬(r.raw.hour ≤ 5 ∨ r.raw.hour = 22 ∨ r.raw.hour = 23) → r.SHWe_hour = 0) := by
  rcases List.mem_map.mp h with ⟨x, hx, rfl⟩
  dsimp only
  refine ⟨rfl, ?_, ?_, ?_⟩
  · unfold compute_cwl_hour BASELINE_WIND
    exact max_comm _ _
  · intro hw
    unfold compute_shwe_hour BASELINE_RECOVERY
    rw [if_pos ((RECOVERY_HOURS_iff x.hour).mpr hw)]
    exact max_comm _ _
  · intro hw
    unfold compute_shwe_hour
    rw [if_neg (fun hmem => hw ((RECOVERY_HOURS_iff x.hour).mp hmem))]

/-- Witness for C2 at `sampleRowE` (hour 23, wind = gust = 20). -/
theorem hourly_scores_spec_witness :
    sampleDerivedE.SHWe_hour = max 0 (sampleDerivedE.EWS - 10) :=
  (hourly_scores_spec [sampleRowE] sampleDerivedE
    (List.mem_map_of_mem _ (List.mem_singleton_self _))).2.2.1
    (Or.inr (Or.inr rfl))

/-- `foldl max` exceeds a bound iff the seed or some element does
(shared helper). -/
theorem foldl_max_lt_iff (xs : List ℚ) : ∀ (a c : ℚ),
    c < xs.foldl max a ↔ c < a ∨ ∃ x ∈ xs, c < x := by
  induction xs with
  | nil =>
    intro a c
    simp
  | cons x t ih =>
    intro a c
    rw [List.foldl_cons, ih (max a x) c]
    simp only [lt_max_iff, List.mem_cons]
    constructor
    · rintro ((h | h) | ⟨y, hy, h⟩)
      · exact Or.inl h
      · exact Or.inr ⟨x, Or.inl rfl, h⟩
      · exact Or.inr ⟨y, Or.inr hy, h⟩
    · rintro (h | ⟨y, (rfl | hy), h⟩)
      · exact Or.inl (Or.inl h)
      · exact Or.inl (Or.inr h)
      · exact Or.inr ⟨y, hy, h⟩

/-- The reindexed group max exceeds a non-negative bound iff some element
does; on an empty group the fill value `0` never does (shared helper). -/
theorem maxListD_lt_iff (l : List ℚ) (c : ℚ) (hc : 0 ≤ c) :
    c < maxListD l ↔ ∃ x ∈ l, c < x := by
  cases l with
  | nil =>
    unfold maxListD
    simp
    linarith
  | cons x t =>
    unfold maxListD
    rw [foldl_max_lt_iff t x c]
    constructor
    · rintro (h | ⟨y, hy, h⟩)
      · exact ⟨x, List.mem_cons_self x t, h⟩
      · exact ⟨y, List.mem_cons_of_mem x hy, h⟩
    · rintro ⟨y, hy, h⟩
      rcases List.mem_cons.mp hy with rfl | hy
      · exact Or.inl h
      · exact Or.inr ⟨y, hy, h⟩

/-- C4: `no_recovery_day` at date `d` is true iff some input row of that date
has its hour in the recovery window and `EWS` strictly above `10`; a date
with no recovery-window rows gets flag `false` (the fill value `0` is below
the baseline), with no error raised. -/
theorem no_recovery_day_spec (df : List HourlyRow) (d : ℕ) :
    (no_recovery_day (hourlyWithScores df) d = true ↔
      ∃ r ∈ df, r.date = d ∧ (r.hour ≤ 5 ∨ r.hour = 22 ∨ r.hour = 23) ∧
        10 < compute_ews r) ∧
    ((¬∃ r ∈ df, r.date = d ∧ (r.hour ≤ 5 ∨ r.hour = 22 ∨ r.hour = 23)) →
      no_recovery_day (hourlyWithScores df) d = false) := by
  have key : no_recovery_day (hourlyWithScores df) d = true ↔
      ∃ r ∈ df, r.date = d ∧ (r.hour ≤ 5 ∨ r.hour = 22 ∨ r.hour = 23) ∧
        10 < compute_ews r := by
    unfold no_recovery_day max_ews_recovery BASELINE_RECOVERY
    rw [decide_eq_true_iff]
    rw [maxListD_lt_iff _ _ (by norm_num)]
    constructor
    · rintro ⟨x, hx, hlt⟩
      rcases List.mem_map.mp hx with ⟨rr, hrr, rfl⟩
      have hf := List.mem_filter.mp hrr
      rcases List.mem_map.mp hf.1 with ⟨r0, hr0, rfl⟩
      have hcond := hf.2
      simp only [Bool.and_eq_true, beq_iff_eq] at hcond
      exact ⟨r0, hr0, hcond.1, (RECOVERY_HOURS_iff r0.hour).mp hcond.2, hlt⟩
    · rintro ⟨r0, hr0, hdate, hhour, hlt⟩
      refine ⟨compute_ews r0, List.mem_map.mpr ⟨_, List.mem_filter.mpr
        ⟨List.mem_map_of_mem _ hr0, ?_⟩, rfl⟩, hlt⟩
      simp only [Bool.and_eq_true, beq_iff_eq]
      exact ⟨hdate, (RECOVERY_HOURS_iff r0.hour).mpr hhour⟩
  refine ⟨key, fun hnone => ?_⟩
  cases hval : no_recovery_day (hourlyWithScores df) d
  · rfl
  · exfalso
    rcases key.mp hval with ⟨r, hr, hd2, hw, _⟩
    exact hnone ⟨r, hr, hd2, hw⟩

/-- Witness for C4 at the empty input and date `0`: no recovery-window rows
exist, and the flag is `false`. -/
theorem no_recovery_day_spec_witness :
    no_recovery_day (hourlyWithScores []) 0 = false :=
  (no_recovery_day_spec [] 0).2 (by simp)

/-- `cumsumAux` length is preserved (shared helper). -/
theorem cumsumAux_length (a : ℚ) (l : List ℚ) : (cumsumAux a l).length = l.length := by
  induction l generalizing a with
  | nil => rfl
  | cons x t ih => simp [cumsumAux, ih]

/-- Prefix sums of non-negative entries are adjacent-wise non-decreasing
(shared helper). -/
theorem cumsumAux_chain (l : List ℚ) : ∀ a, (∀ x ∈ l, 0 ≤ x) →
    List.Chain' (fun p q => p ≤ q) (cumsumAux a l) := by
  induction l with
  | nil =>
    intro a _
    simp [cumsumAux]
  | cons x t ih =>
    intro a h
    have ht : ∀ y ∈ t, 0 ≤ y := fun y hy => h y (List.mem_cons_of_mem x hy)
    cases t with
    | nil => simp [cumsumAux]
    | cons y t2 =>
      have hy : 0 ≤ y := ht y (List.mem_cons_self y t2)
      rw [show cumsumAux a (x :: y :: t2) =
        (a + x) :: (a + x + y) :: cumsumAux (a + x + y) t2 from rfl]
      rw [List.chain'_cons]
      refine ⟨by linarith, ?_⟩
      have := ih (a + x) ht
      rw [show cumsumAux (a + x) (y :: t2) =
        (a + x + y) :: cumsumAux (a + x + y) t2 from rfl] at this
      exact this

/-- The last prefix sum is the seed plus the total (shared helper). -/
theorem cumsumAux_getLastD (l : List ℚ) : ∀ a, (cumsumAux a l).getLastD a = a + l.sum := by
  induction l with
  | nil =>
    intro a
    simp [cumsumAux]
  | cons x t ih =>
    intro a
    rw [show cumsumAux a (x :: t) = (a + x) :: cumsumAux (a + x) t from rfl]
    rw [List.getLastD_cons, ih (a + x), List.sum_cons]
    ring

/-- Reading a list back off its positions reproduces it (shared helper). -/
theorem range_map_getD {α : Type} (l : List α) (d : α) :
    (List.range l.length).map (fun i => l.getD i d) = l := by
  apply List.ext_getElem
  · simp
  · intro i h1 h2
    simp [List.getD_eq_getElem, h2]

/-- Variant of `range_map_getD` taking the length as an equation
(shared helper). -/
theorem range_map_getD_of_len {α : Type} (l : List α) (d : α) (n : ℕ)
    (h : l.length = n) :
    (List.range n).map (fun i => l.getD i d) = l := by
  subst h
  exact range_map_getD l d

/-- The derived hourly scores are non-negative by construction
(shared helper). -/
theorem hourly_scores_nonneg (df : List HourlyRow) (r : HourlyDerived)
    (h : r ∈ hourlyWithScores df) : 0 ≤ r.CWL_hour ∧ 0 ≤ r.SHWe_hour := by
  rcases List.mem_map.mp h with ⟨x, hx, rfl⟩
  dsimp only
  constructor
  · exact le_max_right _ _
  · unfold compute_shwe_hour
    split
    · exact le_max_right _ _
    · exact le_refl 0

theorem daily_CWL_nonneg (df : List HourlyRow) (d : ℕ) :
    0 ≤ daily_CWL (hourlyWithScores df) d := by
  unfold daily_CWL rowsOn
  apply List.sum_nonneg
  intro x hx
  rcases List.mem_map.mp hx with ⟨r, hr, rfl⟩
  exact (hourly_scores_nonneg df r (List.mem_of_mem_filter hr)).1

theorem daily_SHWe_nonneg (df : List HourlyRow) (d : ℕ) :
    0 ≤ daily_SHWe (hourlyWithScores df) d := by
  unfold daily_SHWe rowsOn
  apply List.sum_nonneg
  intro x hx
  rcases List.mem_map.mp hx with ⟨r, hr, rfl⟩
  exact (hourly_scores_nonneg df r (List.mem_of_mem_filter hr)).2

/-- The daily table's cumulative columns are the prefix sums of the daily
columns (shared helper). -/
theorem compute_daily_metrics_cum_cols (H : List HourlyDerived) :
    (compute_daily_metrics H).map (fun r => r.cumulative_CWL) = cumulative_CWL_col H ∧
    (compute_daily_metrics H).map (fun r => r.cumulative_SHWe) = cumulative_SHWe_col H := by
  constructor
  · unfold compute_daily_metrics
    rw [List.map_map]
    show (List.range (dateKeys H).length).map
      (fun i => (cumulative_CWL_col H).getD i 0) = cumulative_CWL_col H
    apply range_map_getD_of_len
    unfold cumulative_CWL_col cumsum daily_CWL_col
    rw [cumsumAux_length, List.length_map]
  · unfold compute_daily_metrics
    rw [List.map_map]
    show (List.range (dateKeys H).length).map
      (fun i => (cumulative_SHWe_col H).getD i 0) = cumulative_SHWe_col H
    apply range_map_getD_of_len
    unfold cumulative_SHWe_col cumsum daily_SHWe_col
    rw [cumsumAux_length, List.length_map]

/-- C6: across the chronological day sequence the cumulative columns are
adjacent-wise non-decreasing, the last `cumulative_CWL` equals the sum of
`daily_CWL` over all days, and these columns are exactly the ones carried by
the daily table. -/
theorem cumulative_monotone_spec (df : List HourlyRow) :
    List.Chain' (fun p q => p ≤ q) (cumulative_CWL_col (hourlyWithScores df)) ∧
    List.Chain' (fun p q => p ≤ q) (cumulative_SHWe_col (hourlyWithScores df)) ∧
    (cumulative_CWL_col (hourlyWithScores df)).getLastD 0 =
      (daily_CWL_col (hourlyWithScores df)).sum ∧
    (compute_daily_metrics (hourlyWithScores df)).map (fun r => r.cumulative_CWL) =
      cumulative_CWL_col (hourlyWithScores df) ∧
    (compute_daily_metrics (hourlyWithScores df)).map (fun r => r.cumulative_SHWe) =
      cumulative_SHWe_col (hourlyWithScores df) := by
  refine ⟨?_, ?_, ?_, (compute_daily_metrics_cum_cols _).1,
    (compute_daily_metrics_cum_cols _).2⟩
  · unfold cumulative_CWL_col cumsum
    apply cumsumAux_chain
    intro x hx
    rcases List.mem_map.mp hx with ⟨dd, _, rfl⟩
    exact daily_CWL_nonneg df dd
  · unfold cumulative_SHWe_col cumsum
    apply cumsumAux_chain
    intro x hx
    rcases List.mem_map.mp hx with ⟨dd, _, rfl⟩
    exact daily_SHWe_nonneg df dd
  · unfold cumulative_CWL_col cumsum
    simpa using cumsumAux_getLastD (daily_CWL_col (hourlyWithScores df)) 0

/-- C8 counterexample: at the concrete empty input, and at a concrete
time-unsorted two-row input, the core produces a value — no error is
raised. -/
theorem core_no_failfast_counterexample :
    (¬∃ msg, compute_all_checked [] = Except.error msg) ∧
    (¬∃ msg, compute_all_checked
      [{ date := 0, hour := 1, wind_speed_ms := 0, gust_ms := 0 },
       { date := 0, hour := 0, wind_speed_ms := 0, gust_ms := 0 }] =
        Except.error msg) := by
  constructor <;> rintro ⟨msg, hmsg⟩ <;> simp [compute_all_checked] at hmsg

/-- C8 amended: `compute_all` performs no validation and never raises: every
input (empty or unsorted included) yields an `ok` result, and the empty
input silently yields empty hourly and daily tables. -/
theorem core_total_spec :
    (∀ df : List HourlyRow, ∃ out, compute_all_checked df = Except.ok out) ∧
    compute_all [] = ([], []) := by
  exact ⟨fun df => ⟨compute_all df, rfl⟩, rfl⟩

/-- C9: the stages only extend their inputs: the hourly frame returned by
`compute_all` restricted to the original columns is exactly the input frame,
and the frame returned by `compute_risk_states` restricted to the
pre-existing daily columns is exactly its input, the only additions being
the `risk_state`, `risk_multiplier` and `risk_state_num` fields. -/
theorem pipeline_nonmutating_spec (df : List HourlyRow) (daily : List DailyRecord) :
    ((compute_all df).1.map (fun r => r.raw) = df) ∧
    ((compute_risk_states daily).map (fun r => r.base) = daily) := by
  constructor
  · show (hourlyWithScores df).map (fun r => r.raw) = df
    unfold hourlyWithScores
    rw [List.map_map]
    exact List.map_id df
  · unfold compute_risk_states
    rw [List.map_map]
    exact List.map_id daily

end WindRisk
